import Mathlib

/-!
# Verification of the Streamlit/Gradio predict-request adapter

Shallow embedding of `src/main.py`: the payload builder `build_payload`,
the JSON serialization used for the payload preview, the base64 file
encoding, the URL configuration, and the submit-button handler with its
response interpretation, modelled as a pure function from the HTTP
outcome to the list of UI effects it performs.

Conventions:
* Python byte strings are `List Nat` with every element `< 256`.
* Python floats never undergo arithmetic in this program (the widget value
  is passed through `float(...)`, an identity on floats); a float is
  modelled by its `repr` string, which is what `json.dumps` emits.
* Python dicts appear only as JSON-style objects; they are modelled as
  association lists in insertion order, which is the order `json.dumps`
  serializes them in.
-/

/-- A Python float value, carried by its decimal `repr` string (the exact
text `json.dumps` would emit for it).  The program only ever passes floats
through unchanged, so no arithmetic on them is needed. -/
structure PyFloat where
  rep : String
deriving DecidableEq, Repr

/-- JSON-serializable Python values, as produced by `build_payload` and by
`resp.json()`: strings, ints, floats, lists and (ordered) dicts. -/
inductive PyVal where
  | str (s : String)
  | int (n : Int)
  | float (f : PyFloat)
  | list (xs : List PyVal)
  | dict (kvs : List (String × PyVal))

/-- A file from `st.file_uploader`: its `.name` and the bytes `.read()`
returns. -/
structure UploadedFile where
  name : String
  contents : List Nat
deriving DecidableEq, Repr

/-! ## base64 (model of Python `base64.b64encode`)

Standard base64 with `=` padding over the RFC 4648 alphabet, as
`base64.b64encode(contents).decode('utf-8')` produces in
`build_payload`. -/

/-- The RFC 4648 base64 alphabet used by Python `base64.b64encode`. -/
def B64_ALPHABET : List Char :=
  "ABCDEFGHIJKLMNOPQRSTUVWXYZabcdefghijklmnopqrstuvwxyz0123456789+/".toList

/-- The base64 digit for a 6-bit group. -/
def char64 (n : Nat) : Char := B64_ALPHABET.getD n 'A'

/-- Inverse lookup in the base64 alphabet. -/
def dec64 (c : Char) : Option Nat := B64_ALPHABET.findIdx? (fun d => d == c)

/-- base64-encode a byte string, three bytes to four digits, with `=`
padding on a final 1- or 2-byte group. -/
def b64encodeChars : List Nat → List Char
  | a :: b :: c :: rest =>
      char64 (a / 4) :: char64 ((a % 4) * 16 + b / 16) ::
      char64 ((b % 16) * 4 + c / 64) :: char64 (c % 64) :: b64encodeChars rest
  | [a, b] => [char64 (a / 4), char64 ((a % 4) * 16 + b / 16), char64 ((b % 16) * 4), '=']
  | [a] => [char64 (a / 4), char64 ((a % 4) * 16), '=', '=']
  | [] => []

/-- `base64.b64encode(bs).decode('utf-8')`. -/
def b64encode (bs : List Nat) : String := String.mk (b64encodeChars bs)

/-- base64 decoding (model of `base64.b64decode`), four digits to three
bytes, honouring `=` padding; `none` on malformed input. -/
def b64decodeChars : List Char → Option (List Nat)
  | w :: x :: y :: z :: rest =>
    match dec64 w, dec64 x with
    | some a, some b =>
      if y = '=' then
        if z = '=' ∧ rest = [] then some [a * 4 + b / 16] else none
      else
        match dec64 y with
        | some c =>
          if z = '=' then
            if rest = [] then some [a * 4 + b / 16, (b % 16) * 16 + c / 4] else none
          else
            match dec64 z with
            | some d =>
              match b64decodeChars rest with
              | some tail =>
                  some ((a * 4 + b / 16) :: ((b % 16) * 16 + c / 4) :: ((c % 4) * 64 + d) :: tail)
              | none => none
            | none => none
        | none => none
    | _, _ => none
  | [] => some []
  | _ => none

/-- base64 decoding of a string. -/
def b64decode (s : String) : Option (List Nat) := b64decodeChars s.toList

theorem dec64_char64 : ∀ n, n < 64 → dec64 (char64 n) = some n := by decide

theorem char64_ne_pad : ∀ n, n < 64 → char64 n ≠ '=' := by decide

/-- base64 round trip: decoding an encoded byte string recovers it. -/
theorem b64decode_b64encode (bs : List Nat) (h : ∀ b ∈ bs, b < 256) :
    b64decodeChars (b64encodeChars bs) = some bs := by
  induction bs using b64encodeChars.induct with
  | case1 a b c rest ih =>
    have ha : a < 256 := h a (by simp)
    have hb : b < 256 := h b (by simp)
    have hc : c < 256 := h c (by simp)
    have hrest : ∀ x ∈ rest, x < 256 := fun x hx => h x (by simp [hx])
    rw [b64encodeChars, b64decodeChars,
        dec64_char64 _ (by omega), dec64_char64 ((a % 4) * 16 + b / 16) (by omega)]
    simp only
    rw [if_neg (char64_ne_pad ((b % 16) * 4 + c / 64) (by omega)),
        dec64_char64 ((b % 16) * 4 + c / 64) (by omega)]
    simp only
    rw [if_neg (char64_ne_pad (c % 64) (by omega)), dec64_char64 (c % 64) (by omega)]
    simp only [ih hrest]
    have e1 : a / 4 * 4 + ((a % 4) * 16 + b / 16) / 16 = a := by omega
    have e2 : ((a % 4) * 16 + b / 16) % 16 * 16 + ((b % 16) * 4 + c / 64) / 4 = b := by omega
    have e3 : ((b % 16) * 4 + c / 64) % 4 * 64 + c % 64 = c := by omega
    rw [e1, e2, e3]
  | case2 a b =>
    have ha : a < 256 := h a (by simp)
    have hb : b < 256 := h b (by simp)
    rw [b64encodeChars, b64decodeChars,
        dec64_char64 _ (by omega), dec64_char64 ((a % 4) * 16 + b / 16) (by omega)]
    simp only
    rw [if_neg (char64_ne_pad ((b % 16) * 4) (by omega)),
        dec64_char64 ((b % 16) * 4) (by omega)]
    simp
    omega
  | case3 a =>
    have ha : a < 256 := h a (by simp)
    rw [b64encodeChars, b64decodeChars,
        dec64_char64 _ (by omega), dec64_char64 ((a % 4) * 16) (by omega)]
    simp
    omega
  | case4 => rfl

/-! ## JSON serialization (model of Python `json.dumps`)

The handler previews the payload with `json.dumps(payload, indent=2)` and
tests `len(json.dumps(payload))` on the compact form.  Python's defaults:
compact calls use separators `", "` and `": "`; `indent=2` uses item
separator `","` followed by a newline and two spaces per nesting level,
and empty containers stay on one line.  `ensure_ascii=True` escapes `"`,
`\`, control characters and all characters outside `0x20..0x7e` (as
`\uXXXX`, with surrogate pairs above `0xFFFF`). -/

/-- Lowercase hex digit, as in Python's `\uXXXX` escapes. -/
def hexDigitLower (n : Nat) : Char := "0123456789abcdef".toList.getD n '0'

/-- Four lowercase hex digits. -/
def hex4 (n : Nat) : String :=
  String.mk [hexDigitLower (n / 4096 % 16), hexDigitLower (n / 256 % 16),
             hexDigitLower (n / 16 % 16), hexDigitLower (n % 16)]

/-- `\uXXXX` escape of a code point, as a surrogate pair above `0xFFFF`
(Python json emits UTF-16 code units). -/
def uEscape (n : Nat) : String :=
  if n < 65536 then "\\u" ++ hex4 n
  else
    "\\u" ++ hex4 (55296 + (n - 65536) / 1024) ++ "\\u" ++ hex4 (56320 + (n - 65536) % 1024)

/-- Escape one character of a JSON string, per Python's `ensure_ascii`
encoder. -/
def escapeJsonChar (c : Char) : String :=
  if c = '\\' then "\\\\"
  else if c = '\"' then "\\\""
  else if c = '\n' then "\\n"
  else if c = '\r' then "\\r"
  else if c = '\t' then "\\t"
  else if c.toNat = 8 then "\\b"
  else if c.toNat = 12 then "\\f"
  else if c.toNat < 32 ∨ c.toNat > 126 then uEscape c.toNat
  else String.singleton c

/-- A JSON string literal: quotes around the escaped characters. -/
def jsonQuote (s : String) : String :=
  "\"" ++ String.join (s.toList.map escapeJsonChar) ++ "\""

mutual

/-- `json.dumps(v)` (compact defaults: separators `", "` and `": "`). -/
def dumpsVal : PyVal → String
  | .str s => jsonQuote s
  | .int n => toString n
  | .float f => f.rep
  | .list xs => "[" ++ dumpsElems xs ++ "]"
  | .dict kvs => "\x7b" ++ dumpsItems kvs ++ "\x7d"

/-- Compact serialization of list elements, `", "`-separated. -/
def dumpsElems : List PyVal → String
  | [] => ""
  | [x] => dumpsVal x
  | x :: y :: xs => dumpsVal x ++ ", " ++ dumpsElems (y :: xs)

/-- Compact serialization of dict items, `", "`-separated, `": "` between
key and value. -/
def dumpsItems : List (String × PyVal) → String
  | [] => ""
  | [(k, v)] => jsonQuote k ++ ": " ++ dumpsVal v
  | (k, v) :: kv :: kvs => jsonQuote k ++ ": " ++ dumpsVal v ++ ", " ++ dumpsItems (kv :: kvs)

end

/-- `indent=2` indentation for a nesting level: `2*lvl` spaces. -/
def indentAt (lvl : Nat) : String := String.mk (List.replicate (2 * lvl) ' ')

mutual

/-- `json.dumps(v, indent=2)` at nesting level `lvl` (separators default
to `","` and `": "` when `indent` is given; empty containers inline). -/
def dumpsIndentVal (lvl : Nat) : PyVal → String
  | .str s => jsonQuote s
  | .int n => toString n
  | .float f => f.rep
  | .list [] => "[]"
  | .list (x :: xs) =>
      "[\n" ++ dumpsIndentElems (lvl + 1) (x :: xs) ++ "\n" ++ indentAt lvl ++ "]"
  | .dict [] => "\x7b\x7d"
  | .dict (kv :: kvs) =>
      "\x7b\n" ++ dumpsIndentItems (lvl + 1) (kv :: kvs) ++ "\n" ++ indentAt lvl ++ "\x7d"

/-- Indented list elements, one per line, `","`-separated. -/
def dumpsIndentElems (lvl : Nat) : List PyVal → String
  | [] => ""
  | [x] => indentAt lvl ++ dumpsIndentVal lvl x
  | x :: y :: xs =>
      indentAt lvl ++ dumpsIndentVal lvl x ++ ",\n" ++ dumpsIndentElems lvl (y :: xs)

/-- Indented dict items, one per line, `","`-separated. -/
def dumpsIndentItems (lvl : Nat) : List (String × PyVal) → String
  | [] => ""
  | [(k, v)] => indentAt lvl ++ jsonQuote k ++ ": " ++ dumpsIndentVal lvl v
  | (k, v) :: kv :: kvs =>
      indentAt lvl ++ jsonQuote k ++ ": " ++ dumpsIndentVal lvl v ++ ",\n" ++
        dumpsIndentItems lvl (kv :: kvs)

end

/-! ## URL configuration (`src/main.py` lines 32-33, 61) -/

/-- `GRADIO_URL` constant from the source. -/
def GRADIO_URL : String := "https://fde6743ee03d00eada.gradio.live/"

/-- Everything up to and including the last `/`. -/
def dropLastSegment (cs : List Char) : List Char :=
  (cs.reverse.dropWhile (fun c => c ≠ '/')).reverse

/-- Model of `urllib.parse.urljoin(base, url)` for the case used in the
source: `base` an absolute http(s) URL without query or fragment and
`url` a relative path reference, so the join replaces the last segment of
the base path with `url`. -/
def urljoin (base url : String) : String := String.mk (dropLastSegment base.toList) ++ url

/-- `GRADIO_API_PREDICT = urllib.parse.urljoin(GRADIO_URL, "api/predict/")`. -/
def GRADIO_API_PREDICT : String := urljoin GRADIO_URL "api/predict/"

/-- Uppercase hex digit, as in `urllib.parse.quote` percent escapes. -/
def hexDigitUpper (n : Nat) : Char := "0123456789ABCDEF".toList.getD n '0'

/-- Two uppercase hex digits of a byte. -/
def hex2Upper (n : Nat) : String := String.mk [hexDigitUpper (n / 16 % 16), hexDigitUpper (n % 16)]

/-- UTF-8 bytes of a code point. -/
def utf8Bytes (n : Nat) : List Nat :=
  if n < 128 then [n]
  else if n < 2048 then [192 + n / 64, 128 + n % 64]
  else if n < 65536 then [224 + n / 4096, 128 + n / 64 % 64, 128 + n % 64]
  else [240 + n / 262144, 128 + n / 4096 % 64, 128 + n / 64 % 64, 128 + n % 64]

/-- Characters `urllib.parse.quote` never escapes: ASCII letters, digits
and `_.-~`. -/
def quoteAlwaysSafe (c : Char) : Bool :=
  c.isAlpha || c.isDigit || c = '_' || c = '.' || c = '-' || c = '~'

/-- Model of `urllib.parse.quote(s, safe)`: safe characters pass through,
everything else is percent-encoded byte-by-byte in UTF-8. -/
def pyQuote (s : String) (safe : String) : String :=
  String.join (s.toList.map fun c =>
    if quoteAlwaysSafe c || safe.toList.contains c then String.singleton c
    else String.join ((utf8Bytes c.toNat).map (fun b => "%" ++ hex2Upper b)))

/-- The `safe` argument passed to `urllib.parse.quote` in the iframe
f-string (line 61). -/
def IFRAME_SAFE : String := ":/?#[]@!$&\x27()*+,;=%"

/-- The `src` attribute of the embed iframe:
`urllib.parse.quote(GRADIO_URL, safe=...)`. -/
def iframe_src : String := pyQuote GRADIO_URL IFRAME_SAFE

/-- `frame_border_style` (line 60). -/
def frame_border_style (show_frame_border : Bool) : String :=
  if show_frame_border then "1px solid #ddd" else "none"

/-- `iframe_html` (line 61): the embed markup built around `iframe_src`. -/
def iframe_html (height : Nat) (show_frame_border : Bool) : String :=
  "<iframe src=\"" ++ iframe_src ++ "\" style=\"width:100%;height:" ++ toString height ++
    "px;border:" ++ frame_border_style show_frame_border ++
    ";border-radius:8px;\" allowfullscreen></iframe>"

/-! ## `build_payload` (`src/main.py` lines 80-94) -/

/-- `build_payload(prompt_text, mt, temp_val, top_p_val, uploaded=None)`.
`mt` arrives from an integer `st.number_input`, so Python's `int(mt)` is
the identity and the parameter is an `Int`; `temp_val`/`top_p_val` arrive
as floats, so `float(...)` is likewise the identity. `uploaded.read()`
yields `uploaded.contents`; the base64 text is decoded to a `str` and
wrapped as `{"name": ..., "data": ...}`, prepended to the data array. -/
def build_payload (prompt_text : String) (mt : Int) (temp_val top_p_val : PyFloat)
    (uploaded : Option UploadedFile) : PyVal :=
  let data : List PyVal :=
    [PyVal.str prompt_text, PyVal.int mt, PyVal.float temp_val, PyVal.float top_p_val]
  let data : List PyVal :=
    match uploaded with
    | none => data
    | some u =>
      let contents := u.contents
      let b64 := b64encode contents
      let file_placeholder : PyVal :=
        PyVal.dict [("name", PyVal.str u.name), ("data", PyVal.str b64)]
      file_placeholder :: data
  PyVal.dict [("data", PyVal.list data)]

/-- The preview text of line 100:
`json.dumps(payload, indent=2)[:1000] + ("..." if len(json.dumps(payload))>1000 else "")`. -/
def payloadPreview (payload : PyVal) : String :=
  (dumpsIndentVal 0 payload).take 1000 ++
    (if (dumpsVal payload).length > 1000 then "..." else "")

example :
    dumpsVal (build_payload "hi" 128 ⟨"0.7"⟩ ⟨"0.95"⟩ none) =
      "\x7b\"data\": [\"hi\", 128, 0.7, 0.95]\x7d" := by rfl

example :
    dumpsIndentVal 0 (build_payload "hi" 128 ⟨"0.7"⟩ ⟨"0.95"⟩ none) =
      "\x7b\n  \"data\": [\n    \"hi\",\n    128,\n    0.7,\n    0.95\n  ]\n\x7d" := by rfl

example : GRADIO_API_PREDICT = "https://fde6743ee03d00eada.gradio.live/api/predict/" := by rfl

example : iframe_src = GRADIO_URL := by rfl

example : b64encode [104, 105] = "aGk=" := by rfl

/-! ## The submit handler (`src/main.py` lines 96-117)

`requests.post` returns a `Response` for *any* HTTP status code and
raises only on transport problems (connection failure, DNS, timeout);
there is no `raise_for_status()` in the source.  A completed exchange is
therefore modelled as an `HttpResponse` carrying the status code, the
result of `resp.json()` (the parsed value, or the decode error's message)
and the raw `resp.text`; a raised exception is modelled separately.  The
handler body is embedded as a pure function from that outcome to the list
of UI effects it performs, in order.  The inner `try` of lines 104-111
wraps everything through `st.write(j['data'][0])`, so an `IndexError`
raised by `j['data'][0]` on an empty list is caught by the same `except`
as a JSON decode failure and rendered with its `str(e)`,
`"list index out of range"`. -/

/-- A completed HTTP exchange: `resp.status_code`, the result of
`resp.json()`, and `resp.text`. -/
structure HttpResponse where
  status_code : Int
  jsonResult : Except String PyVal
  text : String

/-- Outcome of `requests.post`: a response (any status code), or a raised
exception (connection failure, DNS, timeout) with its `str(e)`. -/
inductive PostOutcome where
  | response (r : HttpResponse)
  | raised (msg : String)

/-- One UI effect performed by the handler, in program order. -/
inductive UIAction where
  | post (url : String) (body : PyVal) (timeout : Nat)
  | write (s : String)
  | writeVal (v : PyVal)
  | text (s : String)
  | jsonView (v : PyVal)
  | subheader (s : String)
  | markdown (s : String)
  | errorMsg (s : String)
  | info (s : String)

/-- Python dict lookup `kvs[k]` / `k in kvs` on the association-list
model (keys of a Python dict are unique). -/
def dictGet (kvs : List (String × PyVal)) (k : String) : Option PyVal :=
  (kvs.find? (fun kv => kv.1 == k)).map (fun kv => kv.2)

/-- The static `st.info` hint of line 117. -/
def REQUEST_HINT : String :=
  "If this fails, try opening the Gradio app in a new tab or run the model locally in Colab. Common causes: remote server blocks programmatic access, CORS or the endpoint path is different."

/-- Lines 103-114: the effects after a response arrives.  `st.write`
shows the status; then `resp.json()` either fails (decode error `e`,
rendered with the 2000-character raw-text preview) or yields `j`, which
is shown in full; if `j` is a dict whose `'data'` key holds a list, the
markdown caption is printed and `j['data'][0]` is written - unless the
list is empty, in which case the `IndexError` lands in the same `except`
branch. -/
def interpretResponse (r : HttpResponse) : List UIAction :=
  UIAction.write ("Status: " ++ toString r.status_code) ::
    match r.jsonResult with
    | Except.error e =>
        [UIAction.errorMsg ("Failed to parse JSON response: " ++ e),
         UIAction.text (r.text.take 2000)]
    | Except.ok j =>
        [UIAction.subheader "Response JSON", UIAction.jsonView j] ++
          match j with
          | PyVal.dict kvs =>
            match dictGet kvs "data" with
            | some (PyVal.list ds) =>
                UIAction.markdown "**Interpreted model outputs (first item shown):**" ::
                  match ds with
                  | [] =>
                      [UIAction.errorMsg "Failed to parse JSON response: list index out of range",
                       UIAction.text (r.text.take 2000)]
                  | x :: _ => [UIAction.writeVal x]
            | _ => []
          | _ => []

/-- Lines 96-117: the whole button handler.  It builds the payload, shows
the target URL, the preview, performs the single POST with `timeout=30`,
and then branches on the outcome: a raised exception is caught by the
outer `except` (lines 115-117) and shown as `"Request failed: " + str(e)`
plus the static hint; a response is interpreted by lines 103-114. -/
def predictHandler (prompt : String) (mt : Int) (temp topP : PyFloat)
    (uploaded : Option UploadedFile) (outcome : PostOutcome) : List UIAction :=
  let payload := build_payload prompt mt temp topP uploaded
  [UIAction.write ("POST -> " ++ GRADIO_API_PREDICT),
   UIAction.write "Payload preview:",
   UIAction.text (payloadPreview payload),
   UIAction.post GRADIO_API_PREDICT payload 30] ++
    match outcome with
    | PostOutcome.raised e =>
        [UIAction.errorMsg ("Request failed: " ++ e), UIAction.info REQUEST_HINT]
    | PostOutcome.response r => interpretResponse r

/-- Is this effect the HTTP POST? -/
def UIAction.isPost : UIAction → Bool
  | UIAction.post _ _ _ => true
  | _ => false

/-- Does this effect report a request failure (the outer `except` of
lines 115-117)? -/
def UIAction.isRequestFailure : UIAction → Bool
  | UIAction.errorMsg s => "Request failed: ".toList.isPrefixOf s.toList
  | _ => false

/-- Does this effect report a JSON-parse failure (the inner `except` of
lines 112-114)? -/
def UIAction.isParseFailure : UIAction → Bool
  | UIAction.errorMsg s => "Failed to parse JSON response: ".toList.isPrefixOf s.toList
  | _ => false

/-! ## Helper lemmas about the handler trace -/

theorem parseMsg_ne_requestMsg (x e : String) :
    "Failed to parse JSON response: " ++ x ≠ "Request failed: " ++ e := by
  intro h
  have h2 := congrArg String.data h
  rw [String.data_append, String.data_append] at h2
  have e1 : ("Failed to parse JSON response: ").data
      = 'F' :: ("ailed to parse JSON response: ").data := rfl
  have e2 : ("Request failed: ").data = 'R' :: ("equest failed: ").data := rfl
  rw [e1, e2] at h2
  simp only [List.cons_append, List.cons.injEq] at h2
  exact absurd h2.1 (by decide)

/-- Every effect of `interpretResponse` is one of these shapes; in
particular it is never a `post`, never an `info`, and its only
`errorMsg`s carry the parse-failure prefix. -/
theorem mem_interpretResponse (r : HttpResponse) (a : UIAction)
    (ha : a ∈ interpretResponse r) :
    (∃ s, a = UIAction.write s) ∨
    (∃ s, a = UIAction.errorMsg ("Failed to parse JSON response: " ++ s)) ∨
    (∃ s, a = UIAction.text s) ∨
    (∃ s, a = UIAction.subheader s) ∨
    (∃ v, a = UIAction.jsonView v) ∨
    (∃ s, a = UIAction.markdown s) ∨
    (∃ v, a = UIAction.writeVal v) := by
  obtain ⟨st, jr, tx⟩ := r
  unfold interpretResponse at ha
  dsimp only at ha
  rw [List.mem_cons] at ha
  rcases ha with rfl | ha
  · exact Or.inl ⟨_, rfl⟩
  cases jr with
  | error e =>
    simp only [List.mem_cons, List.not_mem_nil, or_false] at ha
    rcases ha with rfl | rfl
    · exact Or.inr (Or.inl ⟨e, rfl⟩)
    · exact Or.inr (Or.inr (Or.inl ⟨_, rfl⟩))
  | ok j =>
    simp only [List.cons_append, List.nil_append, List.mem_cons] at ha
    rcases ha with rfl | rfl | ha
    · exact Or.inr (Or.inr (Or.inr (Or.inl ⟨_, rfl⟩)))
    · exact Or.inr (Or.inr (Or.inr (Or.inr (Or.inl ⟨_, rfl⟩))))
    cases j with
    | dict kvs =>
      dsimp only at ha
      cases hd : dictGet kvs "data" with
      | none => simp [hd] at ha
      | some v =>
        rw [hd] at ha
        cases v with
        | list ds =>
          dsimp only at ha
          cases ds with
          | nil =>
            simp only [List.mem_cons, List.not_mem_nil, or_false] at ha
            rcases ha with rfl | rfl | rfl
            · exact Or.inr (Or.inr (Or.inr (Or.inr (Or.inr (Or.inl ⟨_, rfl⟩)))))
            · exact Or.inr (Or.inl ⟨"list index out of range", rfl⟩)
            · exact Or.inr (Or.inr (Or.inl ⟨_, rfl⟩))
          | cons x rest =>
            simp only [List.mem_cons, List.not_mem_nil, or_false] at ha
            rcases ha with rfl | rfl
            · exact Or.inr (Or.inr (Or.inr (Or.inr (Or.inr (Or.inl ⟨_, rfl⟩)))))
            · exact Or.inr (Or.inr (Or.inr (Or.inr (Or.inr (Or.inr ⟨_, rfl⟩)))))
        | str s => simp at ha
        | int n => simp at ha
        | float f => simp at ha
        | dict kvs2 => simp at ha
    | str s => simp at ha
    | int n => simp at ha
    | float f => simp at ha
    | list xs => simp at ha

/-- `interpretResponse` performs no HTTP POST. -/
theorem interpretResponse_isPost_false (r : HttpResponse) (a : UIAction)
    (ha : a ∈ interpretResponse r) : a.isPost = false := by
  rcases mem_interpretResponse r a ha with
    ⟨s, rfl⟩ | ⟨s, rfl⟩ | ⟨s, rfl⟩ | ⟨s, rfl⟩ | ⟨v, rfl⟩ | ⟨s, rfl⟩ | ⟨v, rfl⟩ <;> rfl

/-- `interpretResponse` never emits the request-failure message of the
outer `except` (lines 115-117), nor its hint. -/
theorem interpretResponse_no_request_failure (r : HttpResponse) (a : UIAction)
    (ha : a ∈ interpretResponse r) :
    (∀ e, a ≠ UIAction.errorMsg ("Request failed: " ++ e)) ∧ a ≠ UIAction.info REQUEST_HINT := by
  rcases mem_interpretResponse r a ha with
    ⟨s, rfl⟩ | ⟨s, rfl⟩ | ⟨s, rfl⟩ | ⟨s, rfl⟩ | ⟨v, rfl⟩ | ⟨s, rfl⟩ | ⟨v, rfl⟩
  · exact ⟨fun e h => (nomatch h), fun h => (nomatch h)⟩
  · refine ⟨fun e h => ?_, fun h => (nomatch h)⟩
    have h2 : "Failed to parse JSON response: " ++ s = "Request failed: " ++ e := by
      injection h
    exact parseMsg_ne_requestMsg s e h2
  · exact ⟨fun e h => (nomatch h), fun h => (nomatch h)⟩
  · exact ⟨fun e h => (nomatch h), fun h => (nomatch h)⟩
  · exact ⟨fun e h => (nomatch h), fun h => (nomatch h)⟩
  · exact ⟨fun e h => (nomatch h), fun h => (nomatch h)⟩
  · exact ⟨fun e h => (nomatch h), fun h => (nomatch h)⟩

/-! ## Claims -/

/-- C1: for every prompt, tokens, temperature and topP with no file
supplied, the payload built by `build_payload` is exactly
`{"data": [prompt, int(tokens), float(temperature), float(topP)]}`,
with the data array in exactly that order and of length 4.  (`tokens`
arrives as a Python int and `temperature`/`topP` as floats, so the
`int(...)`/`float(...)` coercions are identities.) -/
theorem C1_payload_without_file (prompt : String) (mt : Int) (temp topP : PyFloat) :
    build_payload prompt mt temp topP none =
      PyVal.dict [("data", PyVal.list
        [PyVal.str prompt, PyVal.int mt, PyVal.float temp, PyVal.float topP])] ∧
    (∃ ds, build_payload prompt mt temp topP none = PyVal.dict [("data", PyVal.list ds)] ∧
      ds.length = 4) :=
  ⟨rfl, [PyVal.str prompt, PyVal.int mt, PyVal.float temp, PyVal.float topP], rfl, rfl⟩

/-- C2: for every prompt, tokens, temperature, topP and supplied file
with name `n` and raw bytes `bs`, the payload's data array is exactly
`[{"name": n, "data": base64(bs)}, prompt, int(tokens),
float(temperature), float(topP)]`: the file object is prepended and the
other four arguments keep their order. -/
theorem C2_payload_with_file (prompt : String) (mt : Int) (temp topP : PyFloat)
    (n : String) (bs : List Nat) :
    build_payload prompt mt temp topP (some ⟨n, bs⟩) =
      PyVal.dict [("data", PyVal.list
        [PyVal.dict [("name", PyVal.str n), ("data", PyVal.str (b64encode bs))],
         PyVal.str prompt, PyVal.int mt, PyVal.float temp, PyVal.float topP])] := rfl

/-- C8: `build_payload` is deterministic - two invocations with equal
inputs (prompt, tokens, temperature, topP and optional file name and
contents) build identical payloads. -/
theorem C8_build_payload_deterministic
    (p1 p2 : String) (m1 m2 : Int) (t1 t2 q1 q2 : PyFloat) (u1 u2 : Option UploadedFile)
    (hp : p1 = p2) (hm : m1 = m2) (ht : t1 = t2) (hq : q1 = q2) (hu : u1 = u2) :
    build_payload p1 m1 t1 q1 u1 = build_payload p2 m2 t2 q2 u2 := by
  subst hp; subst hm; subst ht; subst hq; subst hu; rfl

theorem C8_build_payload_deterministic_witness :
    build_payload "hi" 128 ⟨"0.7"⟩ ⟨"0.95"⟩ (some ⟨"f.txt", [104, 105]⟩) =
      build_payload "hi" 128 ⟨"0.7"⟩ ⟨"0.95"⟩ (some ⟨"f.txt", [104, 105]⟩) :=
  C8_build_payload_deterministic "hi" "hi" 128 128 ⟨"0.7"⟩ ⟨"0.7"⟩ ⟨"0.95"⟩ ⟨"0.95"⟩
    (some ⟨"f.txt", [104, 105]⟩) (some ⟨"f.txt", [104, 105]⟩) rfl rfl rfl rfl rfl

/-- C9: base64 round trip for the file argument - for every uploaded
file with name `n` and byte contents `bs`, the first element of the
payload's data array is the dict whose `"name"` field is `n` and whose
`"data"` field base64-decodes back to exactly `bs`. -/
theorem C9_file_base64_roundtrip (prompt : String) (mt : Int) (temp topP : PyFloat)
    (n : String) (bs : List Nat) (h : ∀ b ∈ bs, b < 256) :
    (∃ rest, build_payload prompt mt temp topP (some ⟨n, bs⟩) =
      PyVal.dict [("data", PyVal.list
        (PyVal.dict [("name", PyVal.str n), ("data", PyVal.str (b64encode bs))] :: rest))]) ∧
    b64decode (b64encode bs) = some bs :=
  ⟨⟨[PyVal.str prompt, PyVal.int mt, PyVal.float temp, PyVal.float topP], rfl⟩,
   b64decode_b64encode bs h⟩

theorem C9_file_base64_roundtrip_witness :
    (∀ b ∈ [104, 105], b < 256) ∧
    ((∃ rest, build_payload "hi" 128 ⟨"0.7"⟩ ⟨"0.95"⟩ (some ⟨"f.txt", [104, 105]⟩) =
      PyVal.dict [("data", PyVal.list
        (PyVal.dict [("name", PyVal.str "f.txt"),
                     ("data", PyVal.str (b64encode [104, 105]))] :: rest))]) ∧
     b64decode (b64encode [104, 105]) = some [104, 105]) :=
  ⟨by decide,
   C9_file_base64_roundtrip "hi" 128 ⟨"0.7"⟩ ⟨"0.95"⟩ "f.txt" [104, 105] (by decide)⟩

/-- C3 as stated is false on the code: `requests.post` raises only on
transport errors and the handler never checks `status_code`, so a non-2xx
response is processed exactly like a 2xx one.  Concretely, for a status
500 response with body `{"data": ["ok"]}`, the handler reports no request
failure and surfaces `"ok"` as the interpreted output (index 8 of the
trace). -/
theorem C3_counterexample :
    ((predictHandler "p" 1 ⟨"0.7"⟩ ⟨"0.95"⟩ none
        (PostOutcome.response ⟨500,
          Except.ok (PyVal.dict [("data", PyVal.list [PyVal.str "ok"])]), "body"⟩)).any
      (fun a => a.isRequestFailure) = false) ∧
    ((predictHandler "p" 1 ⟨"0.7"⟩ ⟨"0.95"⟩ none
        (PostOutcome.response ⟨500,
          Except.ok (PyVal.dict [("data", PyVal.list [PyVal.str "ok"])]), "body"⟩))[8]? =
      some (UIAction.writeVal (PyVal.str "ok"))) :=
  ⟨rfl, rfl⟩

/-- C3 amended: network errors and timeouts (exceptions raised by the
POST) are reported as a request failure carrying the underlying error
message plus the static remediation hint; an HTTP response, whatever its
status (2xx or not), is never reported as a request failure - the status
is shown and the body is processed as a success. -/
theorem C3_request_failure_reporting :
    (∀ (prompt : String) (mt : Int) (temp topP : PyFloat) (uploaded : Option UploadedFile)
        (e : String),
        predictHandler prompt mt temp topP uploaded (PostOutcome.raised e) =
          [UIAction.write ("POST -> " ++ GRADIO_API_PREDICT),
           UIAction.write "Payload preview:",
           UIAction.text (payloadPreview (build_payload prompt mt temp topP uploaded)),
           UIAction.post GRADIO_API_PREDICT (build_payload prompt mt temp topP uploaded) 30,
           UIAction.errorMsg ("Request failed: " ++ e),
           UIAction.info REQUEST_HINT]) ∧
    (∀ (prompt : String) (mt : Int) (temp topP : PyFloat) (uploaded : Option UploadedFile)
        (r : HttpResponse) (a : UIAction),
        a ∈ predictHandler prompt mt temp topP uploaded (PostOutcome.response r) →
        (∀ e, a ≠ UIAction.errorMsg ("Request failed: " ++ e)) ∧
        a ≠ UIAction.info REQUEST_HINT) := by
  refine ⟨fun prompt mt temp topP uploaded e => rfl,
          fun prompt mt temp topP uploaded r a ha => ?_⟩
  rw [show predictHandler prompt mt temp topP uploaded (PostOutcome.response r) =
        [UIAction.write ("POST -> " ++ GRADIO_API_PREDICT),
         UIAction.write "Payload preview:",
         UIAction.text (payloadPreview (build_payload prompt mt temp topP uploaded)),
         UIAction.post GRADIO_API_PREDICT (build_payload prompt mt temp topP uploaded) 30] ++
          interpretResponse r from rfl, List.mem_append] at ha
  rcases ha with ha | ha
  · simp only [List.mem_cons, List.not_mem_nil, or_false] at ha
    rcases ha with rfl | rfl | rfl | rfl
    · exact ⟨fun e h => (nomatch h), fun h => (nomatch h)⟩
    · exact ⟨fun e h => (nomatch h), fun h => (nomatch h)⟩
    · exact ⟨fun e h => (nomatch h), fun h => (nomatch h)⟩
    · exact ⟨fun e h => (nomatch h), fun h => (nomatch h)⟩
  · exact interpretResponse_no_request_failure r a ha

theorem C3_request_failure_reporting_witness :
    (∀ e, UIAction.write "Payload preview:" ≠ UIAction.errorMsg ("Request failed: " ++ e)) ∧
    UIAction.write "Payload preview:" ≠ UIAction.info REQUEST_HINT :=
  C3_request_failure_reporting.2 "p" 1 ⟨"0.7"⟩ ⟨"0.95"⟩ none
    ⟨200, Except.ok (PyVal.str "x"), "x"⟩
    (UIAction.write "Payload preview:") (List.Mem.tail _ (List.Mem.head _))

/-- C4 as stated is false on the code at the edge case `{"data": []}`:
the full object is surfaced, but `j['data'][0]` raises `IndexError`,
which the inner `except` catches and displays as a parse-failure notice
even though the body parsed fine. -/
theorem C4_counterexample :
    (predictHandler "p" 1 ⟨"0.7"⟩ ⟨"0.95"⟩ none
      (PostOutcome.response ⟨200,
        Except.ok (PyVal.dict [("data", PyVal.list [])]), "\x7b\"data\": []\x7d"⟩)).any
      (fun a => a.isParseFailure) = true := rfl

/-- C4 amended: for every response body parsed as a dict whose `"data"`
key holds a list `ds`, the full decoded object is surfaced; if `ds` is
non-empty its first element is surfaced as the primary result and no
parse-failure notice appears; but if `ds` is empty, the `IndexError` from
`j['data'][0]` is caught by the inner `except` and shown as a
parse-failure notice (so the edge case `{"data": []}` does not behave as
the original claim demands). -/
theorem C4_data_shape_interpretation
    (prompt : String) (mt : Int) (temp topP : PyFloat) (uploaded : Option UploadedFile)
    (status : Int) (tx : String) (kvs : List (String × PyVal)) (ds : List PyVal)
    (hdata : dictGet kvs "data" = some (PyVal.list ds)) :
    UIAction.jsonView (PyVal.dict kvs) ∈
      predictHandler prompt mt temp topP uploaded
        (PostOutcome.response ⟨status, Except.ok (PyVal.dict kvs), tx⟩) ∧
    (∀ x rest, ds = x :: rest →
      UIAction.writeVal x ∈ predictHandler prompt mt temp topP uploaded
        (PostOutcome.response ⟨status, Except.ok (PyVal.dict kvs), tx⟩) ∧
      (predictHandler prompt mt temp topP uploaded
        (PostOutcome.response ⟨status, Except.ok (PyVal.dict kvs), tx⟩)).any
        (fun a => a.isParseFailure) = false) ∧
    (ds = [] →
      UIAction.errorMsg "Failed to parse JSON response: list index out of range" ∈
        predictHandler prompt mt temp topP uploaded
          (PostOutcome.response ⟨status, Except.ok (PyVal.dict kvs), tx⟩)) := by
  have htr : predictHandler prompt mt temp topP uploaded
      (PostOutcome.response ⟨status, Except.ok (PyVal.dict kvs), tx⟩) =
      [UIAction.write ("POST -> " ++ GRADIO_API_PREDICT),
       UIAction.write "Payload preview:",
       UIAction.text (payloadPreview (build_payload prompt mt temp topP uploaded)),
       UIAction.post GRADIO_API_PREDICT (build_payload prompt mt temp topP uploaded) 30,
       UIAction.write ("Status: " ++ toString status),
       UIAction.subheader "Response JSON",
       UIAction.jsonView (PyVal.dict kvs)] ++
        (match dictGet kvs "data" with
          | some (PyVal.list ds) =>
            UIAction.markdown "**Interpreted model outputs (first item shown):**" ::
              match ds with
              | [] =>
                  [UIAction.errorMsg "Failed to parse JSON response: list index out of range",
                   UIAction.text (tx.take 2000)]
              | x :: _ => [UIAction.writeVal x]
          | _ => []) := rfl
  rw [htr, hdata]
  refine ⟨by simp, fun x rest hds => ?_, fun hds => ?_⟩
  · subst hds
    exact ⟨by simp, rfl⟩
  · subst hds
    simp

theorem C4_data_shape_interpretation_witness :
    UIAction.jsonView (PyVal.dict [("data", PyVal.list [PyVal.str "ok"])]) ∈
      predictHandler "p" 1 ⟨"0.7"⟩ ⟨"0.95"⟩ none
        (PostOutcome.response ⟨200,
          Except.ok (PyVal.dict [("data", PyVal.list [PyVal.str "ok"])]),
          "\x7b\"data\": [\"ok\"]\x7d"⟩) ∧
    (∀ x rest, ([PyVal.str "ok"] : List PyVal) = x :: rest →
      UIAction.writeVal x ∈ predictHandler "p" 1 ⟨"0.7"⟩ ⟨"0.95"⟩ none
        (PostOutcome.response ⟨200,
          Except.ok (PyVal.dict [("data", PyVal.list [PyVal.str "ok"])]),
          "\x7b\"data\": [\"ok\"]\x7d"⟩) ∧
      (predictHandler "p" 1 ⟨"0.7"⟩ ⟨"0.95"⟩ none
        (PostOutcome.response ⟨200,
          Except.ok (PyVal.dict [("data", PyVal.list [PyVal.str "ok"])]),
          "\x7b\"data\": [\"ok\"]\x7d"⟩)).any
        (fun a => a.isParseFailure) = false) ∧
    (([PyVal.str "ok"] : List PyVal) = [] →
      UIAction.errorMsg "Failed to parse JSON response: list index out of range" ∈
        predictHandler "p" 1 ⟨"0.7"⟩ ⟨"0.95"⟩ none
          (PostOutcome.response ⟨200,
            Except.ok (PyVal.dict [("data", PyVal.list [PyVal.str "ok"])]),
            "\x7b\"data\": [\"ok\"]\x7d"⟩)) :=
  C4_data_shape_interpretation "p" 1 ⟨"0.7"⟩ ⟨"0.95"⟩ none 200 "\x7b\"data\": [\"ok\"]\x7d"
    [("data", PyVal.list [PyVal.str "ok"])] [PyVal.str "ok"] rfl

/-- C5: for every response whose body does not parse as JSON (decode
error `e`), the handler completes normally with exactly this trace: the
parse-failure notice carrying the decode error and the raw response text
truncated to the first 2000 characters; nothing is raised and the rest of
the page is unaffected. -/
theorem C5_unparsable_body (prompt : String) (mt : Int) (temp topP : PyFloat)
    (uploaded : Option UploadedFile) (r : HttpResponse) (e : String)
    (h : r.jsonResult = Except.error e) :
    predictHandler prompt mt temp topP uploaded (PostOutcome.response r) =
      [UIAction.write ("POST -> " ++ GRADIO_API_PREDICT),
       UIAction.write "Payload preview:",
       UIAction.text (payloadPreview (build_payload prompt mt temp topP uploaded)),
       UIAction.post GRADIO_API_PREDICT (build_payload prompt mt temp topP uploaded) 30,
       UIAction.write ("Status: " ++ toString r.status_code),
       UIAction.errorMsg ("Failed to parse JSON response: " ++ e),
       UIAction.text (r.text.take 2000)] := by
  obtain ⟨st, jr, tx⟩ := r
  dsimp only at h
  subst h
  rfl

theorem C5_unparsable_body_witness :
    predictHandler "p" 1 ⟨"0.7"⟩ ⟨"0.95"⟩ none
      (PostOutcome.response ⟨404,
        Except.error "Expecting value: line 1 column 1 (char 0)", "<html>not json</html>"⟩) =
      [UIAction.write ("POST -> " ++ GRADIO_API_PREDICT),
       UIAction.write "Payload preview:",
       UIAction.text (payloadPreview (build_payload "p" 1 ⟨"0.7"⟩ ⟨"0.95"⟩ none)),
       UIAction.post GRADIO_API_PREDICT (build_payload "p" 1 ⟨"0.7"⟩ ⟨"0.95"⟩ none) 30,
       UIAction.write ("Status: " ++ toString (404 : Int)),
       UIAction.errorMsg ("Failed to parse JSON response: " ++
         "Expecting value: line 1 column 1 (char 0)"),
       UIAction.text (("<html>not json</html>" : String).take 2000)] :=
  C5_unparsable_body "p" 1 ⟨"0.7"⟩ ⟨"0.95"⟩ none
    ⟨404, Except.error "Expecting value: line 1 column 1 (char 0)", "<html>not json</html>"⟩
    "Expecting value: line 1 column 1 (char 0)" rfl

/-- C6: every transport failure of the POST (the exception `e` raised by
`requests.post`) is caught locally and surfaced as a failure message
containing the underlying error text plus the static remediation hint;
the trace is exactly this list - the handler completes normally (no
crash) and contains exactly one POST (no retry). -/
theorem C6_transport_failure_caught (prompt : String) (mt : Int) (temp topP : PyFloat)
    (uploaded : Option UploadedFile) (e : String) :
    predictHandler prompt mt temp topP uploaded (PostOutcome.raised e) =
      [UIAction.write ("POST -> " ++ GRADIO_API_PREDICT),
       UIAction.write "Payload preview:",
       UIAction.text (payloadPreview (build_payload prompt mt temp topP uploaded)),
       UIAction.post GRADIO_API_PREDICT (build_payload prompt mt temp topP uploaded) 30,
       UIAction.errorMsg ("Request failed: " ++ e),
       UIAction.info REQUEST_HINT] ∧
    (predictHandler prompt mt temp topP uploaded (PostOutcome.raised e)).countP
      (fun a => a.isPost) = 1 :=
  ⟨rfl, rfl⟩

/-- C7: every submission performs exactly one HTTP POST, with timeout 30,
to the predict endpoint; that endpoint is `urljoin` of the single base
URL constant with `"api/predict/"`, and the same constant is the embed
target (the iframe `src`, which `urllib.parse.quote` leaves unchanged
here). -/
theorem C7_single_post_fixed_endpoint (prompt : String) (mt : Int) (temp topP : PyFloat)
    (uploaded : Option UploadedFile) (outcome : PostOutcome) :
    (predictHandler prompt mt temp topP uploaded outcome).filter (fun a => a.isPost) =
      [UIAction.post GRADIO_API_PREDICT (build_payload prompt mt temp topP uploaded) 30] ∧
    GRADIO_API_PREDICT = urljoin GRADIO_URL "api/predict/" ∧
    GRADIO_API_PREDICT = "https://fde6743ee03d00eada.gradio.live/api/predict/" ∧
    iframe_src = GRADIO_URL := by
  refine ⟨?_, rfl, by decide, by decide⟩
  cases outcome with
  | raised e => rfl
  | response r =>
    have h2 : (interpretResponse r).filter (fun a => a.isPost) = [] := by
      rw [List.filter_eq_nil_iff]
      intro a ha
      simp [interpretResponse_isPost_false r a ha]
    rw [show predictHandler prompt mt temp topP uploaded (PostOutcome.response r) =
          [UIAction.write ("POST -> " ++ GRADIO_API_PREDICT),
           UIAction.write "Payload preview:",
           UIAction.text (payloadPreview (build_payload prompt mt temp topP uploaded)),
           UIAction.post GRADIO_API_PREDICT (build_payload prompt mt temp topP uploaded) 30] ++
            interpretResponse r from rfl,
        List.filter_append, h2]
    rfl

/-- C10: the payload preview shown before the POST (the third effect of
every submission trace) is the first 1000 characters of the `indent=2`
JSON serialization of the payload, with `"..."` appended exactly when the
compact (non-indented) JSON serialization exceeds 1000 characters. -/
theorem C10_payload_preview (prompt : String) (mt : Int) (temp topP : PyFloat)
    (uploaded : Option UploadedFile) (outcome : PostOutcome) :
    (predictHandler prompt mt temp topP uploaded outcome)[2]? =
      some (UIAction.text
        ((dumpsIndentVal 0 (build_payload prompt mt temp topP uploaded)).take 1000 ++
         (if (dumpsVal (build_payload prompt mt temp topP uploaded)).length > 1000
          then "..." else ""))) := rfl
